import Mathlib

/-!
Shallow embedding of the patient-intake core of the `doctoreset` repository:
the sqlite-backed patient record store (`backend/db_driver.py`), the callable
controller operations (`backend/api.py`, class `HealthAssistantFnc`), and the
dialogue phase handler (`backend/agent.py`, `on_user_speech_committed` /
`handle_query`).

Modelling conventions:
* `datetime` timestamps are abstract `Nat` values; the sqlite
  `CURRENT_TIMESTAMP` default is an explicit `now` parameter to `create`.
* Python `float` fields (`height`, `weight`) are carried as `Rat`; the code
  never computes with them, it only stores and prints them.  The textual
  rendering of a float is abstracted by `floatRepr` (no claim depends on it).
* The sqlite table is a list of rows in insertion order; the PRIMARY KEY
  constraint is the existence check performed by the insert, and a violation
  (`sqlite3.IntegrityError`) is the explicit `DbError.duplicateId` value.
  A raised Python exception is an `Except.error` that the embedding of a
  caller propagates unless the source wraps the call in `try/except`.
* The unbounded `while True` loop of `_generate_patient_id` is driven by the
  list of successive `random.randint(10000000, 99999999)` draws; an empty
  list models the loop not having terminated yet, hence the `Option` result.
* The report generator (`report_generator.py` is not part of the sources;
  only `api.py` calls it) enters only through the outcome of its
  `generate_and_save_report` call: `Except.ok path` for a returned path,
  `Except.error e` for a raised exception rendered by `str(e)`.
-/

set_option autoImplicit false

namespace Doctoreset

/-- Abstract timestamp standing for a Python `datetime` value. -/
abbrev Timestamp := Nat

/-- Abstract rendering of a Python float (`f"{value}"`); the exact decimal
formatting is irrelevant to every claim, only that it is some string. -/
def floatRepr (q : Rat) : String := toString q

/-- The `Patient` dataclass of `db_driver.py`. -/
structure Patient where
  patient_id : String
  name : String
  age : Int
  height : Rat
  gender : String
  blood_group : String
  weight : Rat
  created_at : Option Timestamp := none
  deriving Repr, DecidableEq

/-- The sqlite `patients` table: rows in insertion order.  The PRIMARY KEY
invariant is enforced by `dbCreatePatientCore`, never assumed. -/
abbrev DbState := List Patient

/-- `DatabaseDriver.get_patient_by_id`: `SELECT * FROM patients WHERE
patient_id = ?` followed by `fetchone`; `None` on a missing key.  (The
`created_at` column is stored structurally, so the `fromisoformat` parse of
the Python code always succeeds here.) -/
def get_patient_by_id (db : DbState) (pid : String) : Option Patient :=
  db.find? (fun p => p.patient_id == pid)

/-- The store-level failure raised by sqlite: `IntegrityError` on a PRIMARY
KEY violation (the spec calls it `DuplicateIdentifier`). -/
inductive DbError where
  | duplicateId
  deriving Repr, DecidableEq

/-- `DatabaseDriver._generate_patient_id`: repeatedly draw an 8-digit random
number `d`, form `f"P{d}"`, and return the first candidate whose lookup is
falsy (absent).  `draws` is the stream of `random.randint` results. -/
def generate_patient_id (db : DbState) : List Nat → Option String
  | [] => none
  | d :: rest =>
    let pid := "P" ++ Nat.repr d
    if (get_patient_by_id db pid).isSome then generate_patient_id db rest
    else some pid

/-- The `INSERT` + `commit` + final lookup of `DatabaseDriver.create_patient`
once the identifier `pid` has been resolved.  The PRIMARY KEY check is the
insert itself; on violation the row set is untouched and the error is
raised.  On success the function returns `self.get_patient_by_id(patient_id)`
(hence an `Option Patient`), with `created_at` filled by the
`CURRENT_TIMESTAMP` default `now`. -/
def dbCreatePatientCore (db : DbState) (name : String) (age : Int)
    (height : Rat) (gender : String) (blood_group : String) (weight : Rat)
    (pid : String) (now : Timestamp) :
    Except DbError (Option Patient) × DbState :=
  match get_patient_by_id db pid with
  | some _ => (Except.error DbError.duplicateId, db)
  | none =>
    let db' := db ++ [{ patient_id := pid, name := name, age := age,
                        height := height, gender := gender,
                        blood_group := blood_group, weight := weight,
                        created_at := some now }]
    (Except.ok (get_patient_by_id db' pid), db')

/-- Python truthiness of the optional `patient_id` argument:
`if not patient_id` is taken for `None` and for the empty string. -/
def pidFalsy : Option String → Bool
  | none => true
  | some s => s == ""

/-- `DatabaseDriver.create_patient`: resolve the identifier (generate one
when the argument is falsy), then insert.  `none` overall means the
generation loop has not yet terminated on the supplied draws. -/
def create_patient (db : DbState) (name : String) (age : Int) (height : Rat)
    (gender : String) (blood_group : String) (weight : Rat)
    (patient_id : Option String) (now : Timestamp) (draws : List Nat) :
    Option (Except DbError (Option Patient) × DbState) :=
  let pid? := if pidFalsy patient_id then generate_patient_id db draws
              else patient_id
  match pid? with
  | none => none
  | some pid =>
    some (dbCreatePatientCore db name age height gender blood_group weight
            pid now)

/-- An apostrophe (used inside several source string literals). -/
def apos : String := String.singleton (Char.ofNat 39)

/-- The `_patient_details` dict of `HealthAssistantFnc` once it has been
filled: one value per `PatientDetails` key, in the dict's fixed insertion
order.  The dict is only ever the initial all-empty mapping (modelled as
`none` below) or a full copy of a store record's seven non-timestamp
fields, because `lookup_patient` and `create_patient` replace every key at
once and nothing else writes to it. -/
structure PatientDetailsMap where
  patient_id : String
  name : String
  age : Int
  height : Rat
  gender : String
  blood_group : String
  weight : Rat
  deriving Repr, DecidableEq

/-- Copy the seven dict values out of a store record, as both adoption sites
in `api.py` do (`created_at` is not kept in the dict). -/
def detailsOfPatient (p : Patient) : PatientDetailsMap :=
  { patient_id := p.patient_id, name := p.name, age := p.age,
    height := p.height, gender := p.gender, blood_group := p.blood_group,
    weight := p.weight }

/-- The mutable state of one `HealthAssistantFnc` instance:
`_patient_details` (see `PatientDetailsMap`), `_symptoms`, and
`_conversation_complete`. -/
structure FncState where
  details : Option PatientDetailsMap
  symptoms : List String
  complete : Bool
  deriving Repr, DecidableEq

/-- `HealthAssistantFnc.__init__`: empty details, no symptoms, not
complete. -/
def initFncState : FncState :=
  { details := none, symptoms := [], complete := false }

/-- `HealthAssistantFnc.has_patient`:
`self._patient_details[PatientDetails.PATIENT_ID] != ""`. -/
def has_patient (st : FncState) : Bool :=
  match st.details with
  | none => false
  | some d => d.patient_id != ""

/-- `HealthAssistantFnc.get_patient_str`: one `key: value` line per truthy
dict value, in dict order.  Python truthiness: a string is truthy iff
non-empty, an `int`/`float` iff non-zero. -/
def get_patient_str (st : FncState) : String :=
  match st.details with
  | none => ""
  | some d =>
    (if d.patient_id != "" then "patient_id: " ++ d.patient_id ++ "\n" else "")
    ++ (if d.name != "" then "name: " ++ d.name ++ "\n" else "")
    ++ (if d.age != 0 then "age: " ++ toString d.age ++ "\n" else "")
    ++ (if d.height != 0 then "height: " ++ floatRepr d.height ++ "\n" else "")
    ++ (if d.gender != "" then "gender: " ++ d.gender ++ "\n" else "")
    ++ (if d.blood_group != "" then "blood_group: " ++ d.blood_group ++ "\n" else "")
    ++ (if d.weight != 0 then "weight: " ++ floatRepr d.weight ++ "\n" else "")

/-- `HealthAssistantFnc.lookup_patient`: delegate to
`DB.get_patient_by_id`; on `None` return `"Patient not found"` untouched,
otherwise replace the whole details dict and report the adopted record. -/
def lookup_patient (db : DbState) (st : FncState) (patient_id : String) :
    FncState × String :=
  match get_patient_by_id db patient_id with
  | none => (st, "Patient not found")
  | some result =>
    let st' := { st with details := some (detailsOfPatient result) }
    (st', "The patient details are: " ++ get_patient_str st')

/-- `HealthAssistantFnc.get_patient_details`. -/
def api_get_patient_details (st : FncState) : FncState × String :=
  (st, "The patient details are: " ++ get_patient_str st)

/-- `HealthAssistantFnc.create_patient`, split at the `DB.create_patient(...)`
call: `result` is that call's outcome.  The source has no `try/except`
here, so a store-level exception (`Except.error`) propagates; the
`result is None` check only fires when the store returns `None`. -/
def create_patient_with (st : FncState)
    (result : Except DbError (Option Patient)) :
    Except DbError (FncState × String) :=
  match result with
  | Except.error e => Except.error e
  | Except.ok none => Except.ok (st, "Failed to create patient")
  | Except.ok (some r) =>
    let st' := { st with details := some (detailsOfPatient r) }
    Except.ok (st', "Patient created! Your patient ID is: " ++ r.patient_id)

/-- `HealthAssistantFnc.create_patient` composed with the real store call
(`DB.create_patient(name, age, height, gender, blood_group, weight)`,
no identifier supplied). -/
def api_create_patient (db : DbState) (st : FncState) (name : String)
    (age : Int) (height : Rat) (gender : String) (blood_group : String)
    (weight : Rat) (now : Timestamp) (draws : List Nat) :
    Option (Except DbError (FncState × String) × DbState) :=
  match create_patient db name age height gender blood_group weight none
      now draws with
  | none => none
  | some (r, db') => some (create_patient_with st r, db')

/-- `HealthAssistantFnc.add_symptom`: append, then acknowledge with the new
count. -/
def add_symptom (st : FncState) (symptom : String) : FncState × String :=
  let st' := { st with symptoms := st.symptoms ++ [symptom] }
  (st', "Symptom added: " ++ symptom ++ ". Total symptoms recorded: "
        ++ toString st'.symptoms.length)

/-- Body of `HealthAssistantFnc.get_symptoms` over the `_symptoms` list: the
empty-case sentence, or the header plus one `"{i}. {symptom}\n"` line per
symptom via `enumerate(self._symptoms, 1)`. -/
def get_symptoms (symptoms : List String) : String :=
  if symptoms.isEmpty then "No symptoms have been recorded yet."
  else
    (List.enumFrom 1 symptoms).foldl
      (fun acc p => acc ++ toString p.1 ++ ". " ++ p.2 ++ "\n")
      "Recorded symptoms:\n"

/-- `HealthAssistantFnc.end_consultation`, split at the
`REPORT_GEN.generate_and_save_report(...)` call whose outcome is `r`
(`Except.ok path` for a returned path, `Except.error e` for a raised
exception rendered as `str(e)`).  The preceding `get_current_patient()`
call cannot raise here: it is guarded by `has_patient`, and its
`int`/`float` conversions are identities on the typed dict values.  The
whole `try` body is wrapped by `except Exception`, so both branches mark
the consultation complete; the no-patient case returns before the `try`. -/
def end_consultation (st : FncState) (r : Except String String) :
    FncState × String :=
  if !(has_patient st) then
    (st, "Cannot end consultation: No patient information available.")
  else
    match r with
    | Except.ok report_path =>
      ({ st with complete := true },
       "Consultation complete! Your diagnostic report has been generated and saved. Thank you for using our health assistant service. Report saved as: "
       ++ report_path)
    | Except.error e =>
      ({ st with complete := true },
       "Consultation marked as complete, but there was an issue generating your report: "
       ++ e ++ ". Please contact support if needed.")

/-- Does `hay` start with `needle` (character-wise)? -/
def startsWithChars : List Char → List Char → Bool
  | _, [] => true
  | [], _ :: _ => false
  | c :: cs, n :: ns => c == n && startsWithChars cs ns

/-- Substring containment on character lists. -/
def containsSubChars (hay needle : List Char) : Bool :=
  match hay with
  | [] => startsWithChars [] needle
  | c :: t => startsWithChars (c :: t) needle || containsSubChars t needle

/-- The Python expression `needle in hay` on strings. -/
def pyIn (needle hay : String) : Bool :=
  containsSubChars hay.data needle.data

/-- The Python `str.lower()` call (character-wise lowercasing, as
`String.toLower` does, but stated directly on the character list so that
it evaluates by kernel reduction). -/
def pyLower (s : String) : String :=
  ⟨s.data.map Char.toLower⟩

/-- The fixed completion phrase list of `handle_query` (symptoms phase). -/
def completion_phrases : List String :=
  ["that" ++ apos ++ "s all", "nothing else", "done", "complete", "finish",
   "end consultation"]

/-- The fixed affirmative phrase list of `handle_query` (completion
phase). -/
def affirmative_phrases : List String :=
  ["yes", "generate", "complete", "done", "finish"]

/-- `prompts.LOOKUP_PATIENT_MESSAGE` (an f-string lambda). -/
def LOOKUP_PATIENT_MESSAGE (msg : String) : String :=
  "If the patient has provided a patient ID attempt to look it up. \n"
  ++ "                                    If they don" ++ apos
  ++ "t have a patient ID or the patient ID does not exist in the database \n"
  ++ "                                    create the entry in the database using your tools. If the patient doesn"
  ++ apos ++ "t have an ID, ask them for the\n"
  ++ "                                    details required to create a new patient profile (name, age, height, gender, blood group, weight). Here is the patient"
  ++ apos ++ "s message: " ++ msg

/-- `prompts.SYMPTOM_COLLECTION_MESSAGE` (triple-quoted constant). -/
def SYMPTOM_COLLECTION_MESSAGE : String :=
  "\n    Now that we have your basic information, let" ++ apos
  ++ "s discuss your symptoms. Please describe what symptoms you" ++ apos
  ++ "re experiencing, \n    including when they started, how severe they are, and any other details you think might be relevant. \n    I"
  ++ apos ++ "ll ask follow-up questions to better understand your condition.\n"

/-- `prompts.SYMPTOM_FOLLOWUP_MESSAGE` (an f-string lambda over the symptom
list, joined by `', '.join(symptoms)`). -/
def SYMPTOM_FOLLOWUP_MESSAGE (symptoms : List String) : String :=
  "Based on the symptoms you" ++ apos ++ "ve mentioned so far: "
  ++ String.intercalate ", " symptoms ++ ", \n"
  ++ "                                            I" ++ apos
  ++ "d like to gather more details. Can you tell me more about the severity, \n"
  ++ "                                            duration, or any patterns you"
  ++ apos ++ "ve noticed with these symptoms? \n"
  ++ "                                            Are there any other symptoms you"
  ++ apos ++ "re experiencing?"

/-- `prompts.CONVERSATION_COMPLETION_MESSAGE` (triple-quoted constant). -/
def CONVERSATION_COMPLETION_MESSAGE : String :=
  "\n    Thank you for providing all this information. Is there anything else you"
  ++ apos ++ "d like to add about your symptoms or condition? \n    If you feel we"
  ++ apos ++ "ve covered everything, I can generate your initial diagnostic report now.\n"

/-- `prompts.REPORT_GENERATION_MESSAGE` (triple-quoted constant). -/
def REPORT_GENERATION_MESSAGE : String :=
  "\n    I" ++ apos
  ++ "m now generating your diagnostic report based on the information and symptoms you"
  ++ apos
  ++ "ve provided. \n    This report will be saved for your healthcare provider to review. Thank you for using our health assistant service.\n"

/-- The conversation phase strings tracked by `entrypoint`
(`conversation_phase`). -/
inductive Phase where
  | info_collection
  | symptoms
  | completion
  deriving Repr, DecidableEq

/-- Role of a chat item created on the session. -/
inductive Role where
  | assistant
  | system
  | user
  deriving Repr, DecidableEq

/-- One `llm.ChatMessage` handed to
`session.conversation.item.create`. -/
structure ChatItem where
  role : Role
  content : String
  deriving Repr, DecidableEq

/-- The per-conversation closure state of `entrypoint`: the `nonlocal`
`conversation_phase` and `symptoms_collected` variables (the latter is
initialised to `False`, passed to `handle_query`, and never read or
written again) together with the `assistant_fnc` instance. -/
structure AgentState where
  phase : Phase
  symptoms_collected : Bool
  fnc : FncState
  deriving Repr, DecidableEq

/-- `handle_query` of `agent.py`: dispatch on the current phase, possibly
reassigning the nonlocal `conversation_phase`, and create exactly one chat
item.  It touches neither the store nor the report generator (the
report-generation branch only instructs the session to call
`end_consultation`). -/
def handle_query (msg : String) (st : AgentState) : AgentState × ChatItem :=
  match st.phase with
  | Phase.info_collection =>
    if has_patient st.fnc then
      ({ st with phase := Phase.symptoms },
       { role := Role.system,
         content := SYMPTOM_COLLECTION_MESSAGE ++ " User message: " ++ msg })
    else
      (st, { role := Role.user, content := msg })
  | Phase.symptoms =>
    let user_content := pyLower msg
    if completion_phrases.any (fun phrase => pyIn phrase user_content) then
      ({ st with phase := Phase.completion },
       { role := Role.system,
         content := CONVERSATION_COMPLETION_MESSAGE ++ " User message: " ++ msg })
    else
      let current_symptoms := get_symptoms st.fnc.symptoms
      if pyIn "No symptoms" current_symptoms then
        (st, { role := Role.system,
               content := "Collect the patient" ++ apos
                 ++ "s symptoms. User message: " ++ msg })
      else
        (st, { role := Role.system,
               content := SYMPTOM_FOLLOWUP_MESSAGE st.fnc.symptoms
                 ++ " User message: " ++ msg })
  | Phase.completion =>
    let user_content := pyLower msg
    if affirmative_phrases.any (fun phrase => pyIn phrase user_content) then
      (st, { role := Role.system,
             content := REPORT_GENERATION_MESSAGE
               ++ " Please call the end_consultation function to generate the report." })
    else
      ({ st with phase := Phase.symptoms },
       { role := Role.system,
         content := "Continue collecting symptoms or information. User message: "
           ++ msg })

/-- The fixed acknowledgment emitted once the consultation is complete. -/
def completed_ack : String :=
  "Your consultation has been completed and your report has been generated. Thank you!"

/-- `on_user_speech_committed` of `agent.py` as a pure step: one utterance
in, the next closure state and the single created chat item out.  When
`is_consultation_complete()` holds it short-circuits to the fixed
acknowledgment; otherwise it dispatches to `handle_query` (patient
adopted) or `find_profile` (no patient).  No branch of this handler calls
the store or the report generator (the function does not even receive
them), matching the "no leaf-component call" reading. -/
def on_user_speech_committed (msg : String) (st : AgentState) :
    AgentState × ChatItem :=
  if st.fnc.complete then
    (st, { role := Role.assistant, content := completed_ack })
  else if has_patient st.fnc then
    handle_query msg st
  else
    (st, { role := Role.system, content := LOOKUP_PATIENT_MESSAGE msg })

/-- The regex `^P\d{8}$` as a boolean check: a leading `P` followed by
exactly eight decimal digit characters. -/
def isValidPid (s : String) : Bool :=
  match s.data with
  | [] => false
  | c :: rest => c == 'P' && rest.length == 8 && rest.all (fun d => d.isDigit)

/-- Sample store row used by concrete witnesses (mirrors the repository's
own test fixtures). -/
def samplePatient : Patient :=
  { patient_id := "P11111111", name := "First Patient", age := 25,
    height := 160, gender := "Female", blood_group := "A+", weight := 55,
    created_at := some 0 }

/-- A one-row store state for concrete witnesses. -/
def sampleDb : DbState := [samplePatient]

/-- Controller details for a sample adopted patient. -/
def sampleDetails : PatientDetailsMap :=
  { patient_id := "P12345678", name := "John Doe", age := 30, height := 175,
    gender := "Male", blood_group := "O+", weight := 70 }

/-- A controller state with an adopted patient and one recorded symptom. -/
def sampleFncState : FncState :=
  { details := some sampleDetails, symptoms := ["Headache"], complete := false }

theorem digitChar_isDigit (k : Nat) (h : k < 10) :
    (Nat.digitChar k).isDigit = true := by
  interval_cases k <;> decide

theorem toDigitsCore_all_digits (f : Nat) :
    ∀ (n : Nat) (acc : List Char), (∀ c ∈ acc, c.isDigit = true) →
      ∀ c ∈ Nat.toDigitsCore 10 f n acc, c.isDigit = true := by
  induction f with
  | zero =>
    intro n acc hacc
    simpa [Nat.toDigitsCore] using hacc
  | succ f ih =>
    intro n acc hacc c hc
    have hmod : n % 10 < 10 := Nat.mod_lt _ (by norm_num)
    simp only [Nat.toDigitsCore] at hc
    by_cases h10 : n / 10 = 0
    · rw [if_pos h10] at hc
      rcases List.mem_cons.mp hc with h | h
      · exact h ▸ digitChar_isDigit _ hmod
      · exact hacc c h
    · rw [if_neg h10] at hc
      refine ih (n / 10) (Nat.digitChar (n % 10) :: acc) ?_ c hc
      intro x hx
      rcases List.mem_cons.mp hx with h | h
      · exact h ▸ digitChar_isDigit _ hmod
      · exact hacc x h

theorem toDigitsCore_length_eq (f : Nat) :
    ∀ (n : Nat) (acc : List Char), 0 < n → n < 10 ^ f →
      (Nat.toDigitsCore 10 f n acc).length = Nat.log 10 n + 1 + acc.length := by
  induction f with
  | zero =>
    intro n acc hn hf
    simp only [pow_zero] at hf
    omega
  | succ f ih =>
    intro n acc hn hf
    simp only [Nat.toDigitsCore]
    by_cases h10 : n / 10 = 0
    · have hn10 : n < 10 := by
        rcases Nat.lt_or_ge n 10 with h | h
        · exact h
        · have := Nat.one_le_div_iff (by norm_num : 0 < 10) |>.mpr h
          omega
      have hlog : Nat.log 10 n = 0 := Nat.log_eq_zero_iff.mpr (Or.inl hn10)
      rw [if_pos h10, hlog]
      simp
      omega
    · have h10le : 10 ≤ n := by
        rcases Nat.lt_or_ge n 10 with h | h
        · exact absurd (Nat.div_eq_of_lt h) h10
        · exact h
      have hdivlt : n / 10 < 10 ^ f := by
        rw [pow_succ] at hf
        exact (Nat.div_lt_iff_lt_mul (by norm_num)).mpr hf
      have ihres := ih (n / 10) (Nat.digitChar (n % 10) :: acc)
        (Nat.pos_of_ne_zero h10) hdivlt
      rw [if_neg h10, ihres, Nat.log_div_base]
      have hlogpos : 0 < Nat.log 10 n := Nat.log_pos (by norm_num) h10le
      simp only [List.length_cons]
      omega

theorem repr_length_eq (n : Nat) (hn : 0 < n) :
    (Nat.repr n).length = Nat.log 10 n + 1 := by
  have hfuel : n < 10 ^ (n + 1) := by
    calc n < 2 ^ n := Nat.lt_two_pow n
    _ ≤ 10 ^ n := Nat.pow_le_pow_left (by norm_num) n
    _ ≤ 10 ^ (n + 1) := Nat.pow_le_pow_right (by norm_num) (Nat.le_succ n)
  have h := toDigitsCore_length_eq (n + 1) n [] hn hfuel
  simpa [Nat.repr, Nat.toDigits, String.length, List.asString] using h

theorem repr_all_digits (n : Nat) :
    ∀ c ∈ (Nat.repr n).data, c.isDigit = true := by
  have h := toDigitsCore_all_digits (n + 1) n [] (by simp)
  simpa [Nat.repr, Nat.toDigits, List.asString] using h

theorem pid_format_valid (d : Nat) (h1 : 10000000 ≤ d) (h2 : d ≤ 99999999) :
    isValidPid ("P" ++ Nat.repr d) = true := by
  have hlog : Nat.log 10 d = 7 := by
    have e1 : (10 : ℕ) ^ 7 = 10000000 := by norm_num
    have e2 : (10 : ℕ) ^ (7 + 1) = 100000000 := by norm_num
    exact Nat.log_eq_of_pow_le_of_lt_pow (by omega) (by omega)
  have hlen : (Nat.repr d).length = 8 := by
    rw [repr_length_eq d (by omega), hlog]
  have hdata : ("P" ++ Nat.repr d).data = 'P' :: (Nat.repr d).data := by
    simp [String.data_append]
  unfold isValidPid
  rw [hdata]
  simp only [beq_self_eq_true, Bool.true_and]
  have hlen' : (Nat.repr d).data.length = 8 := hlen
  rw [hlen']
  simp only [beq_self_eq_true, Bool.true_and]
  exact List.all_eq_true.mpr (repr_all_digits d)

theorem generate_patient_id_absent (db : DbState) :
    ∀ (draws : List Nat) (pid : String),
      generate_patient_id db draws = some pid →
      get_patient_by_id db pid = none := by
  intro draws
  induction draws with
  | nil => intro pid h; simp [generate_patient_id] at h
  | cons d rest ih =>
    intro pid h
    simp only [generate_patient_id] at h
    by_cases hs : (get_patient_by_id db ("P" ++ Nat.repr d)).isSome
    · rw [if_pos hs] at h
      exact ih pid h
    · rw [if_neg hs] at h
      cases h
      exact Option.not_isSome_iff_eq_none.mp hs

/-- Claim C1: with no adopted patient, `end_consultation` returns the
NoPatient message and leaves the state (hence `is_complete`) untouched;
with an adopted patient it sets `is_complete` regardless of the report
generator outcome, returning the path-naming confirmation on success and
the completion message embedding the error text on failure. -/
theorem claim_C1_end_consultation (st : FncState) (r : Except String String) :
    (has_patient st = false →
      end_consultation st r
        = (st, "Cannot end consultation: No patient information available."))
    ∧ (has_patient st = true →
        (end_consultation st r).1.complete = true
        ∧ (∀ path, r = Except.ok path →
            (end_consultation st r).2
              = "Consultation complete! Your diagnostic report has been generated and saved. Thank you for using our health assistant service. Report saved as: "
                ++ path)
        ∧ (∀ e, r = Except.error e →
            (end_consultation st r).2
              = "Consultation marked as complete, but there was an issue generating your report: "
                ++ e ++ ". Please contact support if needed.")) := by
  constructor
  · intro h
    simp [end_consultation, h]
  · intro h
    refine ⟨?_, ?_, ?_⟩
    · cases r <;> simp [end_consultation, h]
    · intro path hpath
      subst hpath
      simp [end_consultation, h]
    · intro e he
      subst he
      simp [end_consultation, h]

/-- Witness for claim C1 at concrete states and generator outcomes. -/
theorem claim_C1_end_consultation_witness :
    end_consultation initFncState (Except.ok "report.txt")
      = (initFncState, "Cannot end consultation: No patient information available.")
    ∧ (end_consultation sampleFncState (Except.ok "report.txt")).1.complete = true
    ∧ (end_consultation sampleFncState (Except.error "File system error")).1.complete
        = true := by
  refine ⟨?_, ?_, ?_⟩
  · exact (claim_C1_end_consultation initFncState (Except.ok "report.txt")).1 rfl
  · exact ((claim_C1_end_consultation sampleFncState (Except.ok "report.txt")).2 rfl).1
  · exact ((claim_C1_end_consultation sampleFncState
      (Except.error "File system error")).2 rfl).1

/-- Claim C2 (code evaluation): the store really fails with the duplicate
error when the identifier exists, and `create_patient` of `api.py`
propagates a store-level fault unchanged instead of returning the
`"Failed to create patient"` message (that message is tied to a `None`
result the real driver never produces). -/
theorem claim_C2_store_fault_propagates :
    create_patient sampleDb "Second Patient" 30 170 "Male" "B+" 70
        (some "P11111111") 0 []
      = some (Except.error DbError.duplicateId, sampleDb)
    ∧ create_patient_with initFncState (Except.error DbError.duplicateId)
      = Except.error DbError.duplicateId := by
  constructor
  · rfl
  · rfl

/-- Numbered list rendering, one `"{i}. {s}\n"` line per symptom starting
at index `i` (the spec's "numbered list (1., 2., ...) in insertion
order"). -/
def numbered_lines (i : Nat) : List String → String
  | [] => ""
  | s :: rest => toString i ++ ". " ++ s ++ "\n" ++ numbered_lines (i + 1) rest

theorem enumFrom_foldl_numbered (l : List String) :
    ∀ (i : Nat) (acc : String),
      (List.enumFrom i l).foldl
        (fun acc p => acc ++ toString p.1 ++ ". " ++ p.2 ++ "\n") acc
      = acc ++ numbered_lines i l := by
  induction l with
  | nil =>
    intro i acc
    simp [numbered_lines, List.enumFrom]
  | cons s rest ih =>
    intro i acc
    simp only [List.enumFrom, List.foldl, numbered_lines]
    rw [ih]
    simp [String.append_assoc]

/-- Counterexample to claim C3 as stated: the empty-sequence sentence of
`get_symptoms` is not `No symptoms were reported during this
consultation.` (that sentence belongs to the report generator). -/
theorem claim_C3_empty_sentence_counterexample :
    get_symptoms [] = "No symptoms have been recorded yet."
    ∧ get_symptoms [] ≠ "No symptoms were reported during this consultation." := by
  constructor
  · rfl
  · decide

/-- Claim C3 (amended): `get_symptoms` renders the symptoms as a numbered
list (1., 2., ...) in insertion order under the `Recorded symptoms:`
header, and for the empty sequence renders the sentence `No symptoms have
been recorded yet.`. -/
theorem claim_C3_get_symptoms_rendering (l : List String) :
    (l = [] → get_symptoms l = "No symptoms have been recorded yet.")
    ∧ (l ≠ [] →
        get_symptoms l = "Recorded symptoms:\n" ++ numbered_lines 1 l) := by
  constructor
  · intro h
    subst h
    rfl
  · intro h
    have hne : l.isEmpty = false := by
      cases l
      · exact absurd rfl h
      · rfl
    unfold get_symptoms
    rw [hne]
    simp only [Bool.false_eq_true, if_false]
    exact enumFrom_foldl_numbered l 1 _

/-- Witness for the amended claim C3 on both branches. -/
theorem claim_C3_get_symptoms_rendering_witness :
    get_symptoms [] = "No symptoms have been recorded yet."
    ∧ get_symptoms ["Headache", "Fever"]
      = "Recorded symptoms:\n1. Headache\n2. Fever\n" := by
  constructor
  · exact (claim_C3_get_symptoms_rendering []).1 rfl
  · have h := (claim_C3_get_symptoms_rendering ["Headache", "Fever"]).2
      (by decide)
    rw [h]
    rfl

/-- Claim C4: when the identifier the store is about to insert (a supplied,
non-falsy one, or any identifier at the insert step itself) already exists,
`create_patient` of the store fails with the duplicate-identifier error and
the row set is unchanged. -/
theorem claim_C4_duplicate_create (db : DbState) (pid : String) (q : Patient)
    (name : String) (age : Int) (height : Rat) (gender blood_group : String)
    (weight : Rat) (now : Timestamp) (draws : List Nat)
    (hpid : pid ≠ "") (hdup : get_patient_by_id db pid = some q) :
    create_patient db name age height gender blood_group weight (some pid)
        now draws
      = some (Except.error DbError.duplicateId, db)
    ∧ dbCreatePatientCore db name age height gender blood_group weight pid now
      = (Except.error DbError.duplicateId, db) := by
  have hcore : dbCreatePatientCore db name age height gender blood_group
      weight pid now = (Except.error DbError.duplicateId, db) := by
    unfold dbCreatePatientCore
    rw [hdup]
  refine ⟨?_, hcore⟩
  have hfalsy : pidFalsy (some pid) = false := by
    simp [pidFalsy, hpid]
  unfold create_patient
  rw [hfalsy]
  simp only [Bool.false_eq_true, if_false]
  rw [hcore]

/-- Witness for claim C4 at a concrete one-row store. -/
theorem claim_C4_duplicate_create_witness :
    create_patient sampleDb "Dup Test" 40 180 "Male" "AB-" 80
        (some "P11111111") 7 [99999999]
      = some (Except.error DbError.duplicateId, sampleDb) :=
  (claim_C4_duplicate_create sampleDb "P11111111" samplePatient "Dup Test"
    40 180 "Male" "AB-" 80 7 [99999999] (by decide) (by rfl)).1

/-- Claim C5: `get_patient_by_id` yields either a stored record with the
requested identifier or an explicit `none` (it is a total function, so a
missing key never raises), and `lookup_patient` on a miss returns the
not-found message with the controller state (details and symptoms)
unchanged. -/
theorem claim_C5_lookup_miss (db : DbState) (st : FncState) (pid : String) :
    (get_patient_by_id db pid = none
      ∨ ∃ p, get_patient_by_id db pid = some p ∧ p ∈ db ∧ p.patient_id = pid)
    ∧ (get_patient_by_id db pid = none →
        lookup_patient db st pid = (st, "Patient not found")) := by
  constructor
  · cases hfind : get_patient_by_id db pid with
    | none => exact Or.inl rfl
    | some p =>
      refine Or.inr ⟨p, rfl, ?_, ?_⟩
      · exact List.mem_of_find?_eq_some hfind
      · have := List.find?_some hfind
        exact eq_of_beq this
  · intro h
    unfold lookup_patient
    rw [h]

/-- Witness for claim C5 at a concrete store and missing identifier. -/
theorem claim_C5_lookup_miss_witness :
    lookup_patient sampleDb initFncState "P00000000"
      = (initFncState, "Patient not found") :=
  (claim_C5_lookup_miss sampleDb initFncState "P00000000").2 (by rfl)

/-- Claim C6: a successful `create_patient` (auto-generated identifier)
followed by `get_patient_by_id` with the identifier of the returned record
yields that very record: field for field the supplied values, with
`created_at` now populated (by the insertion timestamp). -/
theorem claim_C6_create_then_lookup (db : DbState) (name : String) (age : Int)
    (height : Rat) (gender blood_group : String) (weight : Rat)
    (now : Timestamp) (draws : List Nat) (r : Except DbError (Option Patient))
    (db' : DbState)
    (h : create_patient db name age height gender blood_group weight none now
        draws = some (r, db')) :
    ∃ p : Patient, r = Except.ok (some p)
      ∧ p.name = name ∧ p.age = age ∧ p.height = height ∧ p.gender = gender
      ∧ p.blood_group = blood_group ∧ p.weight = weight
      ∧ p.created_at = some now
      ∧ get_patient_by_id db' p.patient_id = some p := by
  unfold create_patient at h
  rw [show pidFalsy none = true from rfl] at h
  simp only [if_true] at h
  cases hgen : generate_patient_id db draws with
  | none =>
    rw [hgen] at h
    exact absurd h (by simp)
  | some pid =>
    rw [hgen] at h
    simp only [Option.some.injEq] at h
    have habs : get_patient_by_id db pid = none :=
      generate_patient_id_absent db draws pid hgen
    unfold dbCreatePatientCore at h
    rw [habs] at h
    set pnew : Patient :=
      { patient_id := pid, name := name, age := age, height := height,
        gender := gender, blood_group := blood_group, weight := weight,
        created_at := some now } with hpnew
    have hfind : get_patient_by_id (db ++ [pnew]) pid = some pnew := by
      unfold get_patient_by_id at habs ⊢
      rw [List.find?_append, habs]
      simp
    obtain ⟨hr, hdb⟩ := Prod.mk.injEq _ _ _ _ |>.mp h
    refine ⟨pnew, ?_, rfl, rfl, rfl, rfl, rfl, rfl, rfl, ?_⟩
    · rw [← hr, hfind]
    · rw [← hdb]
      exact hfind

/-- Witness for claim C6: creating into an empty store with one draw. -/
theorem claim_C6_create_then_lookup_witness :
    ∃ p : Patient,
      (Except.ok (some p) : Except DbError (Option Patient))
        = Except.ok (some p)
      ∧ p.name = "Alice Johnson" ∧ p.age = 28 ∧ p.height = 170
      ∧ p.gender = "Female" ∧ p.blood_group = "B+" ∧ p.weight = 65
      ∧ p.created_at = some 5
      ∧ get_patient_by_id
          [{ patient_id := "P10000001", name := "Alice Johnson", age := 28,
             height := 170, gender := "Female", blood_group := "B+",
             weight := 65, created_at := some 5 }] p.patient_id = some p := by
  obtain ⟨p, _, hname, hage, hh, hg, hbg, hw, hc, hget⟩ :=
    claim_C6_create_then_lookup [] "Alice Johnson" 28 170 "Female" "B+" 65 5
      [10000001] _ _ rfl
  exact ⟨p, rfl, hname, hage, hh, hg, hbg, hw, hc, hget⟩

/-- Claim C7: once `is_consultation_complete()` holds, every utterance
short-circuits: the handler returns the closure state unchanged (same
phase, same symptom list, same adopted patient) and emits only the fixed
acknowledgment; no store or report-generator call is reachable (the
handler's short-circuit branch invokes neither). -/
theorem claim_C7_completed_short_circuit (msg : String) (st : AgentState)
    (h : st.fnc.complete = true) :
    on_user_speech_committed msg st
      = (st, { role := Role.assistant, content := completed_ack }) := by
  unfold on_user_speech_committed
  rw [h]
  simp

/-- Witness for claim C7 at a concrete completed state. -/
theorem claim_C7_completed_short_circuit_witness :
    on_user_speech_committed "I also have a fever"
        { phase := Phase.symptoms, symptoms_collected := false,
          fnc := { details := some sampleDetails, symptoms := ["Headache"],
                   complete := true } }
      = ({ phase := Phase.symptoms, symptoms_collected := false,
           fnc := { details := some sampleDetails, symptoms := ["Headache"],
                    complete := true } },
         { role := Role.assistant, content := completed_ack }) :=
  claim_C7_completed_short_circuit "I also have a fever" _ rfl

/-- Claim C8: with a patient adopted and the consultation not complete, an
utterance in the symptoms phase whose lowercasing contains one of the
fixed completion phrases advances the phase to completion, and an
utterance in the completion phase whose lowercasing contains none of the
affirmative phrases returns the phase to symptoms. -/
theorem claim_C8_phase_transitions (msg : String) (st : AgentState)
    (hc : st.fnc.complete = false) (hp : has_patient st.fnc = true) :
    (st.phase = Phase.symptoms →
      completion_phrases.any (fun phrase => pyIn phrase (pyLower msg)) = true →
      (on_user_speech_committed msg st).1.phase = Phase.completion)
    ∧ (st.phase = Phase.completion →
      affirmative_phrases.any (fun phrase => pyIn phrase (pyLower msg)) = false →
      (on_user_speech_committed msg st).1.phase = Phase.symptoms) := by
  constructor
  · intro hph hmatch
    unfold on_user_speech_committed handle_query
    rw [hc, hp, hph]
    simp [hmatch]
  · intro hph hnone
    unfold on_user_speech_committed handle_query
    rw [hc, hp, hph]
    simp [hnone]

/-- Witness for claim C8: "that is all"-style and "no, wait" utterances at
concrete states. -/
theorem claim_C8_phase_transitions_witness :
    (on_user_speech_committed "I think we are done"
        { phase := Phase.symptoms, symptoms_collected := false,
          fnc := sampleFncState }).1.phase = Phase.completion
    ∧ (on_user_speech_committed "no, wait"
        { phase := Phase.completion, symptoms_collected := false,
          fnc := sampleFncState }).1.phase = Phase.symptoms := by
  constructor
  · exact (claim_C8_phase_transitions "I think we are done"
      { phase := Phase.symptoms, symptoms_collected := false,
        fnc := sampleFncState } rfl rfl).1 rfl (by decide)
  · exact (claim_C8_phase_transitions "no, wait"
      { phase := Phase.completion, symptoms_collected := false,
        fnc := sampleFncState } rfl rfl).2 rfl (by decide)

/-- Claim C9: every identifier `_generate_patient_id` returns from draws in
the `random.randint(10000000, 99999999)` range matches `^P\d{8}$` and is
absent from storage at the moment it is returned. -/
theorem claim_C9_generated_id (db : DbState) (draws : List Nat) (pid : String)
    (hrange : ∀ d ∈ draws, 10000000 ≤ d ∧ d ≤ 99999999)
    (hgen : generate_patient_id db draws = some pid) :
    isValidPid pid = true ∧ get_patient_by_id db pid = none := by
  refine ⟨?_, generate_patient_id_absent db draws pid hgen⟩
  have fmt : ∀ (ds : List Nat),
      (∀ d ∈ ds, 10000000 ≤ d ∧ d ≤ 99999999) →
      ∀ q, generate_patient_id db ds = some q → isValidPid q = true := by
    intro ds
    induction ds with
    | nil =>
      intro _ q hq
      simp [generate_patient_id] at hq
    | cons d rest ih =>
      intro hr q hq
      simp only [generate_patient_id] at hq
      by_cases hs : (get_patient_by_id db ("P" ++ Nat.repr d)).isSome
      · rw [if_pos hs] at hq
        exact ih (fun x hx => hr x (List.mem_cons_of_mem d hx)) q hq
      · rw [if_neg hs] at hq
        cases hq
        exact pid_format_valid d (hr d (List.mem_cons_self d rest)).1
          (hr d (List.mem_cons_self d rest)).2
  exact fmt draws hrange pid hgen

/-- Witness for claim C9 at an empty store and a single concrete draw. -/
theorem claim_C9_generated_id_witness :
    isValidPid "P12345678" = true
    ∧ get_patient_by_id [] "P12345678" = none :=
  claim_C9_generated_id [] [12345678] "P12345678" (by decide) (by rfl)

/-- Claim C10: adopting a patient never resets the symptom sequence: a
successful `lookup_patient` replaces the whole details dict with the found
record's seven fields and leaves `_symptoms` exactly as it was, and a
successful `create_patient` (store returned a record) does the same. -/
theorem claim_C10_adoption_frame (db : DbState) (st st₂ : FncState)
    (pid : String) (p q : Patient)
    (hhit : get_patient_by_id db pid = some p) :
    ((lookup_patient db st pid).1.symptoms = st.symptoms
      ∧ (lookup_patient db st pid).1.details = some (detailsOfPatient p))
    ∧ ∃ st' out,
        create_patient_with st₂ (Except.ok (some q)) = Except.ok (st', out)
        ∧ st'.symptoms = st₂.symptoms
        ∧ st'.details = some (detailsOfPatient q) := by
  constructor
  · unfold lookup_patient
    rw [hhit]
    exact ⟨rfl, rfl⟩
  · exact ⟨_, _, rfl, rfl, rfl⟩

/-- Witness for claim C10: symptoms recorded before the switch survive both
adoption paths. -/
theorem claim_C10_adoption_frame_witness :
    ((lookup_patient sampleDb sampleFncState "P11111111").1.symptoms
        = ["Headache"]
      ∧ (lookup_patient sampleDb sampleFncState "P11111111").1.details
        = some (detailsOfPatient samplePatient))
    ∧ ∃ st' out,
        create_patient_with sampleFncState (Except.ok (some samplePatient))
          = Except.ok (st', out)
        ∧ st'.symptoms = ["Headache"]
        ∧ st'.details = some (detailsOfPatient samplePatient) :=
  claim_C10_adoption_frame sampleDb sampleFncState sampleFncState "P11111111"
    samplePatient samplePatient (by rfl)

end Doctoreset
